import Mathlib

/-!
Shallow embedding of `src/pypixz_pro/scripts/install.py` (PyPIxz-PRO).

The Python module consists of four functions:
  `get_installed_packages`, `is_package_installed`, `install_requirements`,
  `install_modules`,
together with the exception hierarchy of `src/pypixz_pro/exceptions.py`.
External effects (the pip subprocesses, the file system, the logging
registry) are modelled as explicit inputs; the functions become pure Lean
functions returning `Except` values, and the subprocess invocations a call
performs are returned as an explicit trace.
-/

set_option autoImplicit false
set_option linter.unusedVariables false
set_option linter.constructorNameAsVariable false

namespace PyPIxzPro

/-! ### Python string primitives -/

/-- Worker for `pySplit`, structurally recursive on a fuel argument so that
it reduces in the kernel.  `cur` holds the characters of the piece being
built, in reverse.  Each step either consumes one character or consumes a
full (non-empty) separator occurrence, so fuel `s.length` always suffices. -/
def pySplitAux (sep : List Char) : Nat → List Char → List Char → List (List Char)
  | _, [], cur => [cur.reverse]
  | 0, s, cur => [cur.reverse ++ s]
  | fuel + 1, c :: rest, cur =>
    if sep.isPrefixOf (c :: rest) then
      cur.reverse :: pySplitAux sep fuel ((c :: rest).drop sep.length) []
    else
      pySplitAux sep fuel rest (c :: cur)

/-- Python `s.split(sep)` for a non-empty separator: non-overlapping
left-to-right splitting; `"".split(sep) = [""]`. -/
def pySplit (s sep : String) : List String :=
  (pySplitAux sep.data s.data.length s.data []).map String.mk

/-- Python `s.lower()` restricted to ASCII (the only characters exercised
here): lowercase every character. -/
def pyLower (s : String) : String := String.mk (s.data.map Char.toLower)

/-- Python `sub in s` for a non-empty `sub`: true exactly when splitting on
`sub` yields at least two pieces. -/
def hasSub (s sub : String) : Bool := 2 ≤ (pySplit s sub).length

/-- The whitespace set stripped by Python `str.strip()`. -/
def pyIsSpace (c : Char) : Bool :=
  c = ' ' || c = '\t' || c = '\n' || c = '\r' || c = '\x0b' || c = '\x0c'

/-- Python `s.strip()`: drop leading and trailing whitespace. -/
def pyStrip (s : String) : String :=
  String.mk (((s.data.dropWhile pyIsSpace).reverse.dropWhile pyIsSpace).reverse)

/-- Python `a or b` on strings: the empty string is falsy. -/
def pyOr (a b : String) : String := if a = "" then b else a

/-- Python `f.readline()` on a file whose whole text is `content`: the first
line, keeping its trailing newline when one is present. -/
def pyReadline (content : String) : String :=
  match pySplit content "\n" with
  | [] => ""
  | first :: rest => if rest = [] then first else first ++ "\n"

/-- Python truthiness of an optional string argument defaulting to `None`
(`if version:`): `None` and `""` are falsy. -/
def pyTruthy (s : Option String) : Bool :=
  match s with
  | none => false
  | some v => v != ""

/-! ### The installed-package table (a Python `dict[str, str]`) -/

abbrev Dict := List (String × String)

/-- First-match lookup on the association list (a Python string-keyed dict
holds at most one entry per key, so first-match is exact for tables built by
`dict_insert`). -/
def dict_lookup (d : Dict) (k : String) : Option String :=
  (d.find? (fun p => p.1 == k)).map Prod.snd

/-- Python `k in d`. -/
def dict_contains (d : Dict) (k : String) : Bool :=
  (d.find? (fun p => p.1 == k)).isSome

/-- Python `d[k] = v`: overwrite in place when the key exists, else append
(insertion order is preserved). -/
def dict_insert (d : Dict) (k v : String) : Dict :=
  if dict_contains d k then d.map (fun p => if p.1 == k then (k, v) else p)
  else d ++ [(k, v)]

/-- A Python value used as a dict key.  `is_package_installed` passes the
boolean `name.lower() == required_version` to `dict.get`. -/
inductive PyKey where
  | str (s : String)
  | bool (b : Bool)
deriving Repr, DecidableEq

/-- Python `d.get(key)` (default `None`) on a string-keyed dict.  A boolean
key compares unequal to every string key in Python, so the lookup with a
boolean key always yields `None`. -/
def dict_get (d : Dict) (k : PyKey) : Option String :=
  match k with
  | .str s => dict_lookup d s
  | .bool _ => none

/-! ### Exceptions and external effects -/

/-- Decidable equality for `Except` results, so that concrete runs of the
embedded functions can be checked by `decide`. -/
instance instDecEqExcept {ε α : Type} [DecidableEq ε] [DecidableEq α] :
    DecidableEq (Except ε α) := fun x y =>
  match x, y with
  | .ok a, .ok b =>
    if h : a = b then isTrue (by rw [h])
    else isFalse (by intro hc; cases hc; exact h rfl)
  | .error a, .error b =>
    if h : a = b then isTrue (by rw [h])
    else isFalse (by intro hc; cases hc; exact h rfl)
  | .ok _, .error _ => isFalse (by intro hc; cases hc)
  | .error _, .ok _ => isFalse (by intro hc; cases hc)

/-- The exceptions that can escape the embedded functions.  The payload of
the library's own exception kinds is the argument passed to the
constructor; the source builds that argument as `logger.error(...)`. -/
inductive PyExc where
  | missingRequirementsFileError (payload : Option String)
  | moduleInstallationError (payload : Option String)
  | dependencyError (payload : Option String)
  | valueError
  | attributeError
  | osError (msg : String)
deriving Repr, DecidableEq

/-- The `logger` argument as the source leaves it: either the raw string
parameter (never resolved), or a `logging.Logger` obtained from
`logging.getLogger`. -/
inductive PyLogger where
  | str (name : String)
  | logger
deriving Repr, DecidableEq

/-- Evaluating `logger.error(msg)` / `logger.info(msg)` / `logger.debug(msg)`:
a real `logging.Logger` method returns `None`; a raw `str` has no such
attribute, so the call raises `AttributeError`. -/
def logCall (logger : PyLogger) (msg : String) : Except PyExc (Option String) :=
  match logger with
  | .str _ => .error .attributeError
  | .logger => .ok none

/-- The outcome of one `subprocess.run(..., capture_output=True, text=True)`
call: either the child ran and produced a return code with captured output,
or spawning failed with an `OSError`. -/
inductive ProcOutcome where
  | ran (returncode : Nat) (stdout stderr : String)
  | osError (msg : String)
deriving Repr, DecidableEq

/-- One recorded subprocess invocation: the `pip freeze` query, or a
`pip install` call with the given package arguments. -/
inductive Invocation where
  | pipFreeze
  | pipInstall (packages : List String)
deriving Repr, DecidableEq

/-! ### `get_installed_packages` -/

/-- The f-string `f"An error occurred while installing dependencies:\n{error.stderr or 'Unknown error'}"`
shared by `get_installed_packages` and `install_requirements`. -/
def install_error_message (stderr : String) : String :=
  "An error occurred while installing dependencies:\n" ++ pyOr stderr "Unknown error"

/-- The parsing loop of `get_installed_packages`:
`for line in result.stdout.split("\n"): if "==" in line: name, version = line.split("==") ...`.
Unpacking a split with more than two pieces raises `ValueError`, which no
handler catches. -/
def parse_lines (lines : List String) (acc : Dict) : Except PyExc Dict :=
  match lines with
  | [] => .ok acc
  | line :: rest =>
    if hasSub line "==" then
      match pySplit line "==" with
      | [name, version] => parse_lines rest (dict_insert acc (pyLower name) version)
      | _ => .error .valueError
    else parse_lines rest acc

/-- `get_installed_packages(logger)`: run `pip freeze` (outcome supplied as
`freeze`); on `CalledProcessError` raise
`ModuleInstallationError(logger.error(...))`; otherwise parse the captured
stdout.  An `OSError` from the spawn is not caught here. -/
def get_installed_packages (logger : PyLogger) (freeze : ProcOutcome) :
    Except PyExc Dict :=
  match freeze with
  | .osError m => .error (.osError m)
  | .ran rc stdout stderr =>
    if rc = 0 then parse_lines (pySplit stdout "\n") []
    else
      match logCall logger (install_error_message stderr) with
      | .error e => .error e
      | .ok payload => .error (.moduleInstallationError payload)

/-! ### `is_package_installed` -/

/-- The value `is_package_installed` returns: either the result of
`dict.get` (the pinned branch) or a genuine boolean (the bare-name branch). -/
inductive PyRet where
  | fromGet (v : Option String)
  | fromBool (b : Bool)
deriving Repr, DecidableEq

/-- Python truthiness of the returned value: `None` is falsy, a string is
truthy when non-empty, a bool is itself. -/
def truthy (r : PyRet) : Bool :=
  match r with
  | .fromGet none => false
  | .fromGet (some s) => s != ""
  | .fromBool b => b

/-- `is_package_installed(package_line, installed_packages)`.  The pinned
branch executes
`return installed_packages.get(name.lower() == required_version)`:
the *boolean* comparison result is used as the lookup key.  Unpacking a
split with a piece count other than two raises `ValueError`. -/
def is_package_installed (package_line : String) (installed_packages : Dict) :
    Except PyExc PyRet :=
  if hasSub package_line "==" then
    match pySplit package_line "==" with
    | [name, required_version] =>
      .ok (.fromGet (dict_get installed_packages (.bool (pyLower name == required_version))))
    | _ => .error .valueError
  else
    .ok (.fromBool (dict_contains installed_packages (pyLower package_line)))

/-! ### `install_requirements` -/

/-- The list comprehension
`[line.strip() for line in file.readline() if line.strip()]`:
`file.readline()` is a *string* (the first line of the file), so the
iteration is over its characters; each non-whitespace character survives as
a one-character string. -/
def derive_required (content : String) : List String :=
  (pyReadline content).data.filterMap (fun c =>
    let s := pyStrip (String.mk [c])
    if s = "" then none else some s)

/-- The filtering comprehension of `install_requirements`: keep the packages
for which `is_package_installed` is falsy, preserving order; a raised
exception aborts the comprehension. -/
def filter_to_install (required : List String) (table : Dict) :
    Except PyExc (List String) :=
  match required with
  | [] => .ok []
  | p :: rest =>
    match is_package_installed p table with
    | .error e => .error e
    | .ok r =>
      match filter_to_install rest table with
      | .error e => .error e
      | .ok tail => .ok (if truthy r then tail else p :: tail)

/-- The external state a call to `install_requirements` interacts with:
whether `os.path.isfile` accepts the resolved path, the file's text, and
the outcomes of the `pip freeze` and `pip install` subprocesses. -/
structure World where
  path : String
  isfile : Bool
  content : String
  freeze : ProcOutcome
  install : ProcOutcome
deriving Repr, DecidableEq

/-- `install_requirements(path, logger)` with `logger` resolved by
`logging.getLogger` (so every log call returns `None`).  Returns the
result together with the trace of subprocess invocations performed.
After the `if not packages_to_install:` block (which only logs), control
falls through unconditionally to the `pip install` invocation — there is no
early return. -/
def install_requirements (w : World) : Except PyExc Unit × List Invocation :=
  if w.isfile = false then
    match logCall .logger ("The " ++ w.path ++ " file was not found.") with
    | .error e => (.error e, [])
    | .ok payload => (.error (.missingRequirementsFileError payload), [])
  else
    match get_installed_packages .logger w.freeze with
    | .error e => (.error e, [.pipFreeze])
    | .ok existing_packages =>
      match filter_to_install (derive_required w.content) existing_packages with
      | .error e => (.error e, [.pipFreeze])
      | .ok packages_to_install =>
        match w.install with
        | .ran rc _ stderr =>
          if rc = 0 then (.ok (), [.pipFreeze, .pipInstall packages_to_install])
          else
            match logCall .logger (install_error_message stderr) with
            | .error e => (.error e, [.pipFreeze, .pipInstall packages_to_install])
            | .ok payload =>
              (.error (.moduleInstallationError payload),
               [.pipFreeze, .pipInstall packages_to_install])
        | .osError m =>
          match logCall .logger ("OS error occurred during installation: " ++ m) with
          | .error e => (.error e, [.pipFreeze, .pipInstall packages_to_install])
          | .ok payload =>
            (.error (.dependencyError payload),
             [.pipFreeze, .pipInstall packages_to_install])

/-! ### `install_modules` -/

/-- The package-specifier construction of `install_modules`:
`if version: ... elif version_range: ... else: ...` under Python
truthiness (an empty string counts as absent). -/
def package_specifier (module : String) (version version_range : Option String) :
    String :=
  if pyTruthy version then module ++ "==" ++ version.getD ""
  else if pyTruthy version_range then module ++ version_range.getD ""
  else module

/-- The f-string of the `CalledProcessError` handler of `install_modules`. -/
def module_error_message (module stderr : String) : String :=
  "An error occurred while installing the module " ++ module ++ ":\n" ++
    pyOr stderr "Unknown error"

/-- `install_modules(module, version, version_range, logger)`: one
`pip install <specifier>` invocation (outcome supplied as `pip`); on success
the function logs twice and returns `True`; a `CalledProcessError` or an
`OSError`/`DependencyError` is re-raised as
`ModuleInstallationError(logger.error(...))`.  The `logger` parameter keeps
whatever the caller passed — the source never resolves it with
`logging.getLogger`. -/
def install_modules (module : String) (version version_range : Option String)
    (logger : PyLogger) (pip : ProcOutcome) : Except PyExc Bool × Invocation :=
  let inv := Invocation.pipInstall [package_specifier module version version_range]
  match pip with
  | .ran rc _ stderr =>
    if rc = 0 then
      match logCall logger ("Module " ++ module ++ " successfully installed.") with
      | .error e => (.error e, inv)
      | .ok _ => (.ok true, inv)
    else
      match logCall logger (module_error_message module stderr) with
      | .error e => (.error e, inv)
      | .ok payload => (.error (.moduleInstallationError payload), inv)
  | .osError m =>
    match logCall logger ("System or dependency error for the module " ++ module ++ ": " ++ m) with
    | .error e => (.error e, inv)
    | .ok payload => (.error (.moduleInstallationError payload), inv)

/-! ### Spec-side definitions (for the refinement comparisons) -/

/-- The requirement list as the spec describes it: the stripped non-blank
lines of the whole file, one requirement per file line. -/
def spec_required_lines (content : String) : List String :=
  (pySplit content "\n").filterMap (fun line =>
    if pyStrip line = "" then none else some (pyStrip line))

/-- The installed-package table as the spec describes it: one entry per
line of the form `name==version`, keyed by the lowercased name and mapped
to the version; other lines skipped. -/
def spec_table (lines : List String) (acc : Dict) : Dict :=
  match lines with
  | [] => acc
  | line :: rest =>
    match pySplit line "==" with
    | [name, version] => spec_table rest (dict_insert acc (pyLower name) version)
    | _ => spec_table rest acc

/-! ### Helper lemmas -/

/-- When no freeze line splits into more than two pieces, the parsing loop
succeeds and builds exactly the spec-side table. -/
lemma parse_lines_eq_spec_table (lines : List String) (acc : Dict)
    (h : ∀ line ∈ lines, (pySplit line "==").length ≤ 2) :
    parse_lines lines acc = .ok (spec_table lines acc) := by
  induction lines generalizing acc with
  | nil => rfl
  | cons line rest ih =>
    have hline : (pySplit line "==").length ≤ 2 := h line (List.mem_cons_self _ _)
    have hrest : ∀ l ∈ rest, (pySplit l "==").length ≤ 2 :=
      fun l hl => h l (List.mem_cons_of_mem _ hl)
    rcases hsplit : pySplit line "==" with _ | ⟨a, _ | ⟨b, _ | ⟨c, t⟩⟩⟩
    · simp [parse_lines, spec_table, hasSub, hsplit, ih _ hrest]
    · simp [parse_lines, spec_table, hasSub, hsplit, ih _ hrest]
    · simp [parse_lines, spec_table, hasSub, hsplit, ih _ hrest]
    · rw [hsplit] at hline
      simp at hline

/-- A freeze line splitting into three or more pieces makes the parsing
loop raise `ValueError`, whatever came before or after it. -/
lemma parse_lines_error_of_multi (lines : List String) (acc : Dict)
    (h : ∃ line ∈ lines, 3 ≤ (pySplit line "==").length) :
    parse_lines lines acc = .error .valueError := by
  induction lines generalizing acc with
  | nil => simp at h
  | cons line rest ih =>
    rcases h with ⟨l, hl, hlen⟩
    rcases List.mem_cons.mp hl with rfl | hmem
    · rcases hsplit : pySplit l "==" with _ | ⟨a, _ | ⟨b, _ | ⟨c, t⟩⟩⟩
      · rw [hsplit] at hlen
        simp at hlen
      · rw [hsplit] at hlen
        simp at hlen
      · rw [hsplit] at hlen
        simp at hlen
      · have hcond : hasSub l "==" = true := by
          simp [hasSub, hsplit]
        simp [parse_lines, hcond, hsplit]
    · rcases hsplit : pySplit line "==" with _ | ⟨a, _ | ⟨b, _ | ⟨c, t⟩⟩⟩
      · simp [parse_lines, hasSub, hsplit, ih _ ⟨l, hmem, hlen⟩]
      · simp [parse_lines, hasSub, hsplit, ih _ ⟨l, hmem, hlen⟩]
      · simp [parse_lines, hasSub, hsplit, ih _ ⟨l, hmem, hlen⟩]
      · have hcond : hasSub line "==" = true := by
          simp [hasSub, hsplit]
        simp [parse_lines, hcond, hsplit]

/-! ### Claim theorems -/

/-- Claim C1 (code bug).  The claim says the exact-pin branch of
`is_package_installed` returns true iff the table maps the lowercased name
to the required version.  The source instead executes
`installed_packages.get(name.lower() == required_version)`, looking up a
*boolean* key in a string-keyed table, which always yields the falsy
`None`: on the line `"foo==1.0"` with a table mapping `"foo"` to `"1.0"`
the result is falsy although the claim demands true. -/
theorem c1_exact_pin_match_undetected :
    is_package_installed "foo==1.0" [("foo", "1.0")] = .ok (.fromGet none) ∧
    truthy (.fromGet none) = false ∧
    dict_lookup [("foo", "1.0")] "foo" = some "1.0" := by decide

/-- Claim C2 (code bug).  With the file text `"ab\n"` and freeze output
`"a==1\nb==2"`, every derived requirement is already satisfied
(`filter_to_install` returns the empty list), yet `install_requirements`
still performs a `pip install` invocation — with zero package arguments —
because nothing returns early; with pip rejecting the empty install (exit
code 1) the call reports failure, not success. -/
theorem c2_pip_install_invoked_when_all_satisfied :
    filter_to_install (derive_required "ab\n") [("a", "1"), ("b", "2")] = .ok [] ∧
    install_requirements ⟨"requirements", true, "ab\n", .ran 0 "a==1\nb==2" "",
        .ran 1 "" "ERROR: You must give at least one requirement to install"⟩ =
      (.error (.moduleInstallationError none), [.pipFreeze, .pipInstall []]) := by
  decide

/-- Claim C3 (code bug).  The claim says `install_requirements` derives the
stripped non-blank lines of the whole file.  The source iterates over
`file.readline()` — a string — so it derives the non-whitespace
*characters* of the first line: on the file text `"foo==1.0\nbar==2.0\n"`
the derived list is eight one-character strings, not the two lines. -/
theorem c3_first_line_characters_not_lines :
    derive_required "foo==1.0\nbar==2.0\n" =
      ["f", "o", "o", "=", "=", "1", ".", "0"] ∧
    spec_required_lines "foo==1.0\nbar==2.0\n" = ["foo==1.0", "bar==2.0"] ∧
    derive_required "foo==1.0\nbar==2.0\n" ≠
      spec_required_lines "foo==1.0\nbar==2.0\n" := by decide

/-- Claim C4 (code bug).  The claim says the raised failure carries a
message embedding the captured stderr (or a placeholder).  The source
builds that message and passes it to `logger.error(...)`, then raises
`ModuleInstallationError(logger.error(...))` — and `Logger.error` returns
`None`, so the exception's payload is `None`, not the message: here pip
fails with stderr `"boom"`, the formatted text embeds `"boom"`, yet the
raised failure carries no message at all. -/
theorem c4_raised_failure_carries_no_message :
    install_error_message "boom" =
      "An error occurred while installing dependencies:\nboom" ∧
    hasSub (install_error_message "boom") "boom" = true ∧
    (install_requirements ⟨"requirements", true, "x\n", .ran 0 "" "",
        .ran 1 "" "boom"⟩).1 =
      .error (.moduleInstallationError none) := by decide

/-- Claim C5 (code bug).  The claim says `install_modules` returns true on
exit code zero and raises a module-installation failure on non-zero exit.
The source never resolves its `logger` parameter (a plain string, default
`"main"`) with `logging.getLogger`, so `logger.info(...)` on the success
path and `logger.error(...)` in the failure handler both raise
`AttributeError`: the call neither returns `True` on exit zero nor raises
`ModuleInstallationError` on a non-zero exit. -/
theorem c5_install_modules_raises_attribute_error :
    (install_modules "bar" none none (.str "main") (.ran 0 "ok" "")).1 =
      .error .attributeError ∧
    (install_modules "bar" none none (.str "main") (.ran 1 "" "boom")).1 =
      .error .attributeError := by decide

/-- Claim C6 (confirmed).  When no freeze output line contains `==` more
than once, `get_installed_packages` builds exactly the table described by
the spec: one entry per `name==version` line, keyed by the lowercased name
and mapped to the version, lines without `==` skipped. -/
theorem c6_freeze_output_builds_spec_table (logger : PyLogger)
    (stdout stderr : String)
    (h : ∀ line ∈ pySplit stdout "\n", (pySplit line "==").length ≤ 2) :
    get_installed_packages logger (.ran 0 stdout stderr) =
      .ok (spec_table (pySplit stdout "\n") []) := by
  simp [get_installed_packages]
  exact parse_lines_eq_spec_table _ _ h

/-- Witness for C6 at the spec's example output. -/
theorem c6_freeze_output_builds_spec_table_witness :
    (∀ line ∈ pySplit "foo==1.0\nbar==2.3\nnot-a-pair" "\n",
        (pySplit line "==").length ≤ 2) ∧
    get_installed_packages .logger (.ran 0 "foo==1.0\nbar==2.3\nnot-a-pair" "") =
      .ok [("foo", "1.0"), ("bar", "2.3")] :=
  ⟨by decide,
   (c6_freeze_output_builds_spec_table .logger "foo==1.0\nbar==2.3\nnot-a-pair" ""
     (by decide)).trans (by decide)⟩

/-- Claim C7 (confirmed).  When the resolved path is not an existing file,
`install_requirements` raises the missing-requirements-file kind and
performs no subprocess invocation at all. -/
theorem c7_missing_file_no_subprocess (w : World) (h : w.isfile = false) :
    install_requirements w = (.error (.missingRequirementsFileError none), []) := by
  simp [install_requirements, h, logCall]

/-- Witness for C7 at a concrete world. -/
theorem c7_missing_file_no_subprocess_witness :
    (World.isfile ⟨"requirements", false, "", .ran 0 "" "", .ran 0 "" ""⟩ = false) ∧
    install_requirements ⟨"requirements", false, "", .ran 0 "" "", .ran 0 "" ""⟩ =
      (.error (.missingRequirementsFileError none), []) :=
  ⟨rfl, c7_missing_file_no_subprocess _ rfl⟩

/-- Counterexample to claim C8 as stated: with `version` given as the empty
string (and no range), the claim predicts the specifier
`"bar" ++ "==" ++ ""`, but the source's truthiness test skips the empty
version and produces the bare name `"bar"`. -/
theorem c8_counterexample_empty_version :
    package_specifier "bar" (some "") none = "bar" ∧
    ("bar" : String) ≠ "bar" ++ "==" ++ "" := by decide

/-- Claim C8 (corrected: "given" must be read as "given and non-empty",
Python truthiness).  For non-empty arguments the specifier is
`name==version` when a version is given (taking precedence over any
range), the name concatenated with the range when only a range is given,
and the bare name otherwise; an empty version or range behaves as absent. -/
theorem c8_specifier_construction (module v r : String)
    (hv : v ≠ "") (hr : r ≠ "") :
    package_specifier module (some v) (some r) = module ++ "==" ++ v ∧
    package_specifier module (some v) none = module ++ "==" ++ v ∧
    package_specifier module none (some r) = module ++ r ∧
    package_specifier module none none = module ∧
    package_specifier module (some "") (some r) = module ++ r ∧
    package_specifier module (some "") none = module := by
  simp [package_specifier, pyTruthy, hv, hr]

/-- Witness for C8 at the spec's examples. -/
theorem c8_specifier_construction_witness :
    ("2.0" : String) ≠ "" ∧ (">=1.0,!=2.0" : String) ≠ "" ∧
    package_specifier "bar" (some "2.0") none = "bar==2.0" ∧
    package_specifier "bar" none (some ">=1.0,!=2.0") = "bar>=1.0,!=2.0" ∧
    package_specifier "bar" none none = "bar" :=
  ⟨by decide, by decide,
   (c8_specifier_construction "bar" "2.0" ">=1.0,!=2.0" (by decide) (by decide)).2.1.trans
     (by decide),
   (c8_specifier_construction "bar" "2.0" ">=1.0,!=2.0" (by decide) (by decide)).2.2.1.trans
     (by decide),
   (c8_specifier_construction "bar" "2.0" ">=1.0,!=2.0" (by decide) (by decide)).2.2.2.1⟩

/-- Claim C9 (confirmed).  On a bare-name line (no `==`),
`is_package_installed` returns exactly the boolean saying whether the
lowercased line is a key of the table — true iff the key is present,
regardless of the stored version. -/
theorem c9_bare_name_membership (line : String) (table : Dict)
    (h : hasSub line "==" = false) :
    is_package_installed line table =
      .ok (.fromBool (dict_contains table (pyLower line))) ∧
    ∀ r, is_package_installed line table = .ok r →
      (truthy r = true ↔ dict_contains table (pyLower line) = true) := by
  have h1 : is_package_installed line table =
      .ok (.fromBool (dict_contains table (pyLower line))) := by
    simp [is_package_installed, h]
  refine ⟨h1, fun r hr => ?_⟩
  rw [h1] at hr
  injection hr with hr2
  subst hr2
  simp [truthy]

/-- Witness for C9: the case-insensitive bare-name hit `"Foo"` against a
table keyed `"foo"`. -/
theorem c9_bare_name_membership_witness :
    hasSub "Foo" "==" = false ∧
    is_package_installed "Foo" [("foo", "1.0")] = .ok (.fromBool true) :=
  ⟨by decide,
   (c9_bare_name_membership "Foo" [("foo", "1.0")] (by decide)).1.trans (by decide)⟩

/-- Claim C10 (confirmed).  A freeze output line holding `==` twice or more
is not skipped: its two-way unpacking fails, and `get_installed_packages`
raises an unhandled `ValueError` instead of returning a table. -/
theorem c10_double_eq_line_raises (logger : PyLogger) (stdout stderr : String)
    (h : ∃ line ∈ pySplit stdout "\n", 3 ≤ (pySplit line "==").length) :
    get_installed_packages logger (.ran 0 stdout stderr) = .error .valueError := by
  simp [get_installed_packages]
  exact parse_lines_error_of_multi _ _ h

/-- Witness for C10 at the output line `"a==b==c"`. -/
theorem c10_double_eq_line_raises_witness :
    (∃ line ∈ pySplit "a==b==c" "\n", 3 ≤ (pySplit line "==").length) ∧
    get_installed_packages .logger (.ran 0 "a==b==c" "") = .error .valueError :=
  ⟨by decide, c10_double_eq_line_raises .logger "a==b==c" "" (by decide)⟩

end PyPIxzPro
